import Mathlib

/-!
Verification of the natural-language specification of `mirrorbox.py`
(thomasjinlo/mirrobox) against a shallow embedding of its code.

Conventions of the embedding:
* Win32 / pynput / `re` facilities are external collaborators.  Their results
  are passed in as explicit parameters or oracles (e.g. `vkKeyScan : Char → Int`,
  window geometry records, an abstract compiled-regex matcher).
* A Python call that may raise inside a `try`/`except` block is modelled with
  `Option` (`none` = the call raised and the handler ran).
* Python `int(...)` applied to the float quotient `a * b / c` of machine
  integers is modelled as exact integer division truncated toward zero
  (`Int.tdiv`); the float rounding is immaterial at the magnitudes involved.
* Global mutable state (`target_windows`, `_input_queue`, `_last_input_time`)
  is threaded explicitly through the embedded functions.
-/

namespace Mirrorbox

/-! ## Mouse path: `send_mouse_event` (mirrorbox.py lines 143-150) and
`on_move` (lines 181-205). -/

/-- Mouse message kinds posted by the program (`WM_MOUSEMOVE`,
`WM_LBUTTONDOWN`, `WM_LBUTTONUP`, `WM_RBUTTONDOWN`, `WM_RBUTTONUP`). -/
inductive MouseMsg where
  | move | lbuttondown | lbuttonup | rbuttondown | rbuttonup
deriving DecidableEq

/-- Geometry and dispatch behaviour of one target window, as the OS reports it:
`clientW`/`clientH` are `GetClientRect`'s width and height, `clientOrigin` is
the screen position of the window's client point (0,0) (the offset that
`ScreenToClient` subtracts), and `postOk` is false when the
`ScreenToClient`/`PostMessage` calls for this window raise (the per-target
`except` branch of `send_mouse_event` then runs). -/
structure TargetWin where
  hwnd : Nat
  clientW : Int
  clientH : Int
  clientOrigin : Int × Int
  postOk : Bool
deriving DecidableEq

/-- Geometry of the source (foreground) window as used by `on_move`:
`left`/`top` from `GetWindowRect`, `clientW`/`clientH` from `GetClientRect`. -/
structure SourceWin where
  left : Int
  top : Int
  clientW : Int
  clientH : Int
deriving DecidableEq

/-- One `PostMessage` attempt recorded by `send_mouse_event`: the target
handle, the message kind, and the posted point (the two 16-bit words packed
into `lparam` by `MAKELONG(client_pt[0]&0xFFFF, client_pt[1]&0xFFFF)`; the
Python mask `& 0xFFFF` on an arbitrary integer equals `% 0x10000`, which is
how it is written here), or `none` when the attempt raised and was only
logged. -/
structure MouseAttempt where
  hwnd : Nat
  msg : MouseMsg
  posted : Option (Int × Int)
deriving DecidableEq

/-- Win32 `ScreenToClient`: translate a screen point into the window's client
coordinates by subtracting the screen position of the client origin. -/
def screenToClient (t : TargetWin) (p : Int × Int) : Int × Int :=
  (p.1 - t.clientOrigin.1, p.2 - t.clientOrigin.2)

/-- Embedding of `send_mouse_event(x, y, event_flag)` (lines 143-150): iterate
over the current target list; for each target convert the given point with
`ScreenToClient`, mask each word with `0xFFFF`, and post it; a raising target
is logged and the loop continues with the next target. -/
def send_mouse_event (targets : List TargetWin) (x y : Int) (flag : MouseMsg) :
    List MouseAttempt :=
  match targets with
  | [] => []
  | t :: rest =>
    (if t.postOk then
      MouseAttempt.mk t.hwnd flag
        (some ((screenToClient t (x, y)).1 % 0x10000,
               (screenToClient t (x, y)).2 % 0x10000))
     else MouseAttempt.mk t.hwnd flag none) :: send_mouse_event rest x y flag

/-- Embedding of `on_move(x, y)` (lines 181-205).  `sourceActive` is the value
of `is_source_active()`; `src` is the foreground window's geometry; `targets`
is the list produced by `refresh_target_windows()`.  For each target the
handler scales the offset of the screen point from the source window's
top-left by target client size over source client size, truncating toward
zero, and then calls `send_mouse_event` with the scaled point — which itself
loops over every target.  A zero source client dimension raises
`ZeroDivisionError` at the first iteration; `on_move`'s own `except` then
swallows it before any message is posted. -/
def on_move (sourceActive : Bool) (src : SourceWin) (targets : List TargetWin)
    (x y : Int) : List MouseAttempt :=
  if sourceActive = false then []
  else if src.clientW = 0 ∨ src.clientH = 0 then []
  else
    (targets.map fun t =>
      send_mouse_event targets
        (((x - src.left) * t.clientW).tdiv src.clientW)
        (((y - src.top) * t.clientH).tdiv src.clientH)
        MouseMsg.move).flatten

/-- C1: the scenario of the claim — source client size 800×600 (window
top-left at (0,0)), one target of client size 400×300 whose client origin sits
at screen (100,50), move at screen point (400,300), i.e. source-relative
(400,300).  The code computes the scaled point (200,150) but then feeds it
through `ScreenToClient`, so the message actually posted carries client point
(100,100), not (200,150) as the claim states.  (With `on_click`, which passes
a genuine screen point into `send_mouse_event`, the conversion would be
appropriate; passing the already-client-relative scaled point is a slip of
`on_move`.) -/
theorem on_move_scenario_double_converts :
    on_move true (SourceWin.mk 0 0 800 600)
        [TargetWin.mk 1 400 300 (100, 50) true] 400 300
      = [MouseAttempt.mk 1 MouseMsg.move (some (100, 100))] ∧
    ((100 : Int), (100 : Int)) ≠ ((200 : Int), (150 : Int)) := by
  constructor
  · rfl
  · decide

/-- C2: with two targets (client sizes 400×300 and 800×600, both with client
origin (0,0)), a single gated move at source-relative (400,300) makes the code
post four messages, not two: `on_move` computes the per-target scaled point
but `send_mouse_event` broadcasts each such point to every target, so target 1
also receives the point (400,300) that was scaled for target 2. -/
theorem on_move_broadcasts_to_all_targets :
    on_move true (SourceWin.mk 0 0 800 600)
        [TargetWin.mk 1 400 300 (0, 0) true, TargetWin.mk 2 800 600 (0, 0) true]
        400 300
      = [MouseAttempt.mk 1 MouseMsg.move (some (200, 150)),
         MouseAttempt.mk 2 MouseMsg.move (some (200, 150)),
         MouseAttempt.mk 1 MouseMsg.move (some (400, 300)),
         MouseAttempt.mk 2 MouseMsg.move (some (400, 300))] ∧
    (on_move true (SourceWin.mk 0 0 800 600)
        [TargetWin.mk 1 400 300 (0, 0) true, TargetWin.mk 2 800 600 (0, 0) true]
        400 300).length = 4 ∧
    MouseAttempt.mk 1 MouseMsg.move (some (400, 300)) ∈
      on_move true (SourceWin.mk 0 0 800 600)
        [TargetWin.mk 1 400 300 (0, 0) true, TargetWin.mk 2 800 600 (0, 0) true]
        400 300 := by
  refine ⟨rfl, rfl, ?_⟩
  decide

/-! ## Source matcher: `compile_source_pattern` (lines 61-67) and
`is_source_active` (lines 133-141). -/

/-- Python's `str.lower()`, modelled as per-character (ASCII) lowercasing of
the string's character list. -/
def pyLower (s : String) : String := String.mk (s.data.map Char.toLower)

/-- Python's `a in b` on strings: `a` occurs as a contiguous substring of
`b`, modelled as infix containment of the character lists. -/
def pyIn (a b : String) : Prop := a.data <:+: b.data

instance (a b : String) : Decidable (pyIn a b) := by
  unfold pyIn; infer_instance

/-- Model of a pattern compiled by Python's `re.compile(p, re.IGNORECASE)`.
The compiled matcher itself is an external capability of the `re` library and
stays opaque (`search` is the boolean outcome of `SOURCE_RE.search`);
`search_ci` records the library's documented guarantee for the `IGNORECASE`
flag: titles that agree up to letter case are matched identically. -/
structure CompiledRegex where
  search : String → Bool
  search_ci : ∀ s t : String, pyLower s = pyLower t → search s = search t

/-- Embedding of `is_source_active()` (lines 133-141) applied to the
foreground window's title (`GetWindowText(fg) or ""`): when
`compile_source_pattern` failed (`SOURCE_RE is None`) the rule is plain
case-insensitive substring containment `SOURCE_TITLE.lower() in
title.lower()`; otherwise it is `bool(SOURCE_RE.search(title))`. -/
def is_source_active (sourceTitle : String) (sourceRe : Option CompiledRegex)
    (title : String) : Bool :=
  match sourceRe with
  | none => decide (pyIn (pyLower sourceTitle) (pyLower title))
  | some r => r.search title

/-- The source rule as the specification words it: the title matches the
compiled case-insensitive regex when one exists, and otherwise matches by
plain case-insensitive substring containment of the source pattern. -/
def specSourceRule (sourceTitle : String) (sourceRe : Option CompiledRegex)
    (title : String) : Prop :=
  match sourceRe with
  | none => pyIn (pyLower sourceTitle) (pyLower title)
  | some r => r.search title = true

/-- C5: `is_source_active` returns true iff the foreground title matches the
source rule; matching is case-insensitive (titles that agree up to letter
case are matched identically, by the `IGNORECASE` guarantee in the regex
branch and by lowercasing both sides in the fallback branch); and when the
source pattern failed to compile the rule is exactly case-insensitive
substring containment of the source pattern in the title. -/
theorem is_source_active_spec :
    (∀ (st : String) (re : Option CompiledRegex) (title : String),
       is_source_active st re title = true ↔ specSourceRule st re title) ∧
    (∀ (st : String) (re : Option CompiledRegex) (t₁ t₂ : String),
       pyLower t₁ = pyLower t₂ →
       is_source_active st re t₁ = is_source_active st re t₂) ∧
    (∀ (st title : String),
       is_source_active st none title
         = decide (pyIn (pyLower st) (pyLower title))) := by
  refine ⟨?_, ?_, ?_⟩
  · intro st re title
    cases re with
    | none => simp [is_source_active, specSourceRule]
    | some r => simp [is_source_active, specSourceRule]
  · intro st re t₁ t₂ h
    cases re with
    | none => simp only [is_source_active, h]
    | some r => exact r.search_ci t₁ t₂ h
  · intro st title
    rfl

/-- Witness for C5 at concrete inputs: the titles "My RG1 Win" and
"my rg1 wiN" agree up to case, and the fallback rule treats them alike. -/
theorem is_source_active_spec_witness :
    pyLower "My RG1 Win" = pyLower "my rg1 wiN" ∧
    is_source_active "rg1" none "My RG1 Win"
      = is_source_active "rg1" none "my rg1 wiN" :=
  ⟨by decide, is_source_active_spec.2.1 "rg1" none "My RG1 Win" "my rg1 wiN" (by decide)⟩

/-! ## Window directory: `enum_win`/`refresh_target_windows` (lines 74-90)
and `list_all_windows` (lines 92-103). -/

/-- Python's `str.strip()`, modelled as dropping whitespace characters from
both ends of the character list. -/
def pyStrip (s : String) : String :=
  String.mk (((s.data.dropWhile Char.isWhitespace).reverse.dropWhile
    Char.isWhitespace).reverse)

/-- One top-level window as the enumeration callbacks see it.  `visible` is
`IsWindowVisible`'s answer and `title` is `GetWindowText`'s answer; `none`
means the query raised (the surrounding `except` branch then runs). -/
structure WinInfo where
  hwnd : Nat
  visible : Option Bool
  title : Option String
deriving DecidableEq

/-- Embedding of the `_collect` callback of `list_all_windows` (lines 94-101):
keep a window when it is visible and its title is truthy (non-empty) and still
truthy after stripping whitespace; any raising query skips the window
(`except: pass`). -/
def collectWindow (w : WinInfo) : Option (Nat × String) :=
  match w.visible, w.title with
  | some true, some t => if t ≠ "" ∧ pyStrip t ≠ "" then some (w.hwnd, t) else none
  | _, _ => none

/-- Embedding of `list_all_windows()` (lines 92-103): `EnumWindows` feeds
every top-level window to `_collect`, which appends the survivors in
enumeration order. -/
def list_all_windows (ws : List WinInfo) : List (Nat × String) :=
  ws.filterMap collectWindow

/-- Embedding of the `enum_win` callback (lines 74-86): skip a window that is
not visible or whose raw title is empty (no whitespace stripping here), or
whose queries raise; otherwise keep it when any compiled target pattern
matches the title. -/
def enum_win (pats : List CompiledRegex) (w : WinInfo) : Bool :=
  match w.visible, w.title with
  | some true, some t => if t = "" then false else pats.any fun p => p.search t
  | _, _ => false

/-- Embedding of `refresh_target_windows()` (lines 88-90): clear the target
list and re-enumerate, keeping the handles accepted by `enum_win`. -/
def refresh_target_windows (pats : List CompiledRegex) (ws : List WinInfo) :
    List Nat :=
  (ws.filter (enum_win pats)).map WinInfo.hwnd

/-- Characterization of one `_collect` step: a window yields an entry exactly
when its queries succeeded, it is visible, and its title survives stripping. -/
theorem collectWindow_eq_some (w : WinInfo) (p : Nat × String) :
    collectWindow w = some p ↔
      w.visible = some true ∧ w.title = some p.2 ∧ pyStrip p.2 ≠ "" ∧
        w.hwnd = p.1 := by
  obtain ⟨h, vis, ti⟩ := w
  cases vis with
  | none => simp [collectWindow]
  | some v =>
    cases ti with
    | none => cases v <;> simp [collectWindow]
    | some t =>
      cases v with
      | false => simp [collectWindow]
      | true =>
        have hunfold : collectWindow (WinInfo.mk h (some true) (some t))
            = if t ≠ "" ∧ pyStrip t ≠ "" then some (h, t) else none := rfl
        by_cases hcond : t ≠ "" ∧ pyStrip t ≠ ""
        · rw [hunfold, if_pos hcond]
          constructor
          · intro hc
            obtain rfl : (h, t) = p := Option.some.inj hc
            exact ⟨rfl, rfl, hcond.2, rfl⟩
          · rintro ⟨-, ht2, -, hh2⟩
            obtain rfl : t = p.2 := Option.some.inj ht2
            have hh3 : h = p.1 := hh2
            rw [hh3, Prod.mk.eta]
        · rw [hunfold, if_neg hcond]
          constructor
          · intro hc
            exact absurd hc (by simp)
          · rintro ⟨-, ht2, hstrip, -⟩
            obtain rfl : t = p.2 := Option.some.inj ht2
            refine absurd ⟨?_, hstrip⟩ hcond
            intro h0
            rw [h0] at hstrip
            exact hstrip rfl

/-- Membership characterization of `list_all_windows`. -/
theorem mem_list_all_windows (ws : List WinInfo) (p : Nat × String) :
    p ∈ list_all_windows ws ↔
      ∃ w, w ∈ ws ∧ w.visible = some true ∧ w.title = some p.2 ∧
        pyStrip p.2 ≠ "" ∧ w.hwnd = p.1 := by
  rw [list_all_windows, List.mem_filterMap]
  constructor
  · rintro ⟨w, hw, hc⟩
    obtain ⟨hv, ht, hstrip, hh⟩ := (collectWindow_eq_some w p).mp hc
    exact ⟨w, hw, hv, ht, hstrip, hh⟩
  · rintro ⟨w, hw, hv, ht, hstrip, hh⟩
    exact ⟨w, hw, (collectWindow_eq_some w p).mpr ⟨hv, ht, hstrip, hh⟩⟩

/-- C9: `list_all_windows` includes a window exactly when it is visible and
its title is non-empty after trimming whitespace (given that both OS queries
succeed), and a window whose visibility or title query raises is skipped
without disturbing the entries produced for the windows before and after it. -/
theorem list_all_windows_spec :
    (∀ (ws : List WinInfo) (w : WinInfo) (t : String),
       w ∈ ws → w.visible = some true → w.title = some t → pyStrip t ≠ "" →
       (w.hwnd, t) ∈ list_all_windows ws) ∧
    (∀ (ws : List WinInfo) (p : Nat × String),
       p ∈ list_all_windows ws →
       ∃ w, w ∈ ws ∧ w.visible = some true ∧ w.title = some p.2 ∧
         pyStrip p.2 ≠ "" ∧ w.hwnd = p.1) ∧
    (∀ (pre post : List WinInfo) (bad : WinInfo),
       bad.visible = none ∨ bad.title = none →
       list_all_windows (pre ++ bad :: post)
         = list_all_windows pre ++ list_all_windows post) := by
  refine ⟨?_, ?_, ?_⟩
  · intro ws w t hw hv ht htrim
    exact (mem_list_all_windows ws (w.hwnd, t)).mpr ⟨w, hw, hv, ht, htrim, rfl⟩
  · intro ws p hp
    exact (mem_list_all_windows ws p).mp hp
  · intro pre post bad hbad
    have hnone : collectWindow bad = none := by
      rcases hbad with h | h
      · rw [collectWindow, h]
      · rcases hv : bad.visible with _ | v
        · rw [collectWindow, hv]
        · cases v with
          | false => rw [collectWindow, hv]
          | true => rw [collectWindow, hv, h]
    rw [list_all_windows, list_all_windows, list_all_windows,
      List.filterMap_append, List.filterMap_cons, hnone]

/-- Witness for C9 at concrete inputs: the visible window 5 titled
"rg2 - build" is listed; the single listed entry comes from it; and the
window 6 whose title query raised is skipped while windows 5 and 7 survive
around it. -/
theorem list_all_windows_spec_witness :
    (WinInfo.mk 5 (some true) (some "rg2 - build") ∈
        [WinInfo.mk 5 (some true) (some "rg2 - build")] ∧
      pyStrip "rg2 - build" ≠ "" ∧
      (5, "rg2 - build") ∈ list_all_windows
        [WinInfo.mk 5 (some true) (some "rg2 - build")]) ∧
    (∃ w, w ∈ [WinInfo.mk 5 (some true) (some "rg2 - build")] ∧
      w.visible = some true ∧ w.title = some "rg2 - build" ∧
      pyStrip "rg2 - build" ≠ "" ∧ w.hwnd = 5) ∧
    list_all_windows
        [WinInfo.mk 5 (some true) (some "rg2 - build"),
         WinInfo.mk 6 (some true) none,
         WinInfo.mk 7 (some true) (some "rg3-dev")]
      = list_all_windows [WinInfo.mk 5 (some true) (some "rg2 - build")] ++
        list_all_windows [WinInfo.mk 7 (some true) (some "rg3-dev")] :=
  ⟨⟨by decide, by decide,
      list_all_windows_spec.1 [WinInfo.mk 5 (some true) (some "rg2 - build")]
        (WinInfo.mk 5 (some true) (some "rg2 - build")) "rg2 - build"
        (by decide) rfl rfl (by decide)⟩,
    list_all_windows_spec.2.1 [WinInfo.mk 5 (some true) (some "rg2 - build")]
      (5, "rg2 - build") (by decide),
    list_all_windows_spec.2.2 [WinInfo.mk 5 (some true) (some "rg2 - build")]
      [WinInfo.mk 7 (some true) (some "rg3-dev")]
      (WinInfo.mk 6 (some true) none) (Or.inr rfl)⟩

/-- C10: `enum_win` tests only raw non-emptiness of the title while
`list_all_windows` strips it first, so a visible window whose title is
whitespace only and matches a target pattern becomes a dispatch target yet
never appears in the listing output. -/
theorem whitespace_title_target_not_listed
    (pats : List CompiledRegex) (ws : List WinInfo) (w : WinInfo) (t : String)
    (hw : w ∈ ws) (hv : w.visible = some true) (ht : w.title = some t)
    (hne : t ≠ "") (hws : pyStrip t = "")
    (hmatch : (pats.any fun p => p.search t) = true) :
    w.hwnd ∈ refresh_target_windows pats ws ∧
      (w.hwnd, t) ∉ list_all_windows ws := by
  constructor
  · have henum : enum_win pats w = true := by
      obtain ⟨h, vis, ti⟩ := w
      obtain rfl : vis = some true := hv
      obtain rfl : ti = some t := ht
      have hunfold : enum_win pats (WinInfo.mk h (some true) (some t))
          = if t = "" then false else pats.any fun p => p.search t := rfl
      rw [hunfold, if_neg hne]
      exact hmatch
    exact List.mem_map.mpr ⟨w, List.mem_filter.mpr ⟨hw, henum⟩, rfl⟩
  · intro hmem
    obtain ⟨w', _, _, _, htrim, _⟩ := (mem_list_all_windows ws (w.hwnd, t)).mp hmem
    exact htrim hws

/-- Witness for C10 at a concrete input: a visible window titled with a single
space, matched by an (everything-matching) compiled target pattern, is in the
refreshed target list but absent from the listing. -/
theorem whitespace_title_target_not_listed_witness :
    (" " : String) ≠ "" ∧ pyStrip " " = "" ∧
    7 ∈ refresh_target_windows [CompiledRegex.mk (fun _ => true) (fun _ _ _ => rfl)]
          [WinInfo.mk 7 (some true) (some " ")] ∧
    (7, " ") ∉ list_all_windows [WinInfo.mk 7 (some true) (some " ")] :=
  ⟨by decide, by decide,
    (whitespace_title_target_not_listed
      [CompiledRegex.mk (fun _ => true) (fun _ _ _ => rfl)]
      [WinInfo.mk 7 (some true) (some " ")]
      (WinInfo.mk 7 (some true) (some " ")) " "
      (by simp) rfl rfl (by decide) (by decide) rfl).1,
    (whitespace_title_target_not_listed
      [CompiledRegex.mk (fun _ => true) (fun _ _ _ => rfl)]
      [WinInfo.mk 7 (some true) (some " ")]
      (WinInfo.mk 7 (some true) (some " ")) " "
      (by simp) rfl rfl (by decide) (by decide) rfl).2⟩

/-! ## Key resolution and capture: `SPECIAL_KEY_MAP` (lines 108-123),
`vk_from_key` (lines 125-131), `on_press` (lines 249-256). -/

/-- Kind of a queued keyboard event (the first component of the
`('keydown', vk)` / `('keyup', vk)` pairs). -/
inductive EvKind where
  | keydown | keyup
deriving DecidableEq

/-- One entry of the pending input batch: an (eventKind, keyCode) pair. -/
structure KeyEvt where
  kind : EvKind
  vk : Int
deriving DecidableEq

/-- A key as pynput delivers it to the capture callbacks: either a `KeyCode`
carrying a `char` attribute (possibly `None`), or one of the named special
keys of `keyboard.Key`.  The named keys listed here are the fourteen entries
of `SPECIAL_KEY_MAP` plus representatives (`caps_lock`, `f1`, `home`) of the
special keys the table does not cover. -/
inductive PyKey where
  | keyCode (ch : Option Char)
  | enter | space | backspace | tab | esc
  | left | up | right | down
  | shift | shift_r | ctrl | ctrl_l | alt
  | caps_lock | f1 | home
deriving DecidableEq

/-- Embedding of `SPECIAL_KEY_MAP` (lines 108-123) with the `win32con`
virtual-key constants (`VK_RETURN` = 0x0D, `VK_SPACE` = 0x20, `VK_BACK` =
0x08, `VK_TAB` = 0x09, `VK_ESCAPE` = 0x1B, `VK_LEFT`..`VK_DOWN` = 0x25..0x28,
`VK_SHIFT` = 0x10, `VK_RSHIFT` = 0xA1, `VK_CONTROL` = 0x11, `VK_LCONTROL` =
0xA2, `VK_MENU` = 0x12); `dict.get` yields `None` for any other key. -/
def SPECIAL_KEY_MAP : PyKey → Option Int
  | .enter => some 0x0D
  | .space => some 0x20
  | .backspace => some 0x08
  | .tab => some 0x09
  | .esc => some 0x1B
  | .left => some 0x25
  | .up => some 0x26
  | .right => some 0x27
  | .down => some 0x28
  | .shift => some 0x10
  | .shift_r => some 0xA1
  | .ctrl => some 0x11
  | .ctrl_l => some 0xA2
  | .alt => some 0x12
  | _ => none

/-- Embedding of `vk_from_key(key)` (lines 125-131).  `vkKeyScan` is the OS
oracle `win32api.VkKeyScan`: low byte = virtual-key code, high byte = shift
state, and -1 (both bytes) when the character has no mapping on the current
keyboard layout.  For a `KeyCode` with a truthy `char` the code returns
`VkKeyScan(key.char) & 0xFF` (the Python mask `& 0xFF` on an arbitrary
integer equals `% 0x100`, which is how it is written here); otherwise it
falls through to `SPECIAL_KEY_MAP.get(key)`. -/
def vk_from_key (vkKeyScan : Char → Int) (key : PyKey) : Option Int :=
  match key with
  | .keyCode (some c) => some (vkKeyScan c % 0x100)
  | k => SPECIAL_KEY_MAP k

/-- Embedding of `on_press(key)` (lines 249-256): when the source window is
active and `vk_from_key` yields a truthy value (Python `if vk:` — so neither
`None` nor `0`), record the current time as the last-input time and append
`('keydown', vk)` to the queue; otherwise leave both unchanged. -/
def on_press (vkKeyScan : Char → Int) (sourceActive : Bool) (key : PyKey)
    (queue : List KeyEvt) (lastInput now : ℤ) : List KeyEvt × ℤ :=
  if sourceActive = false then (queue, lastInput)
  else
    match vk_from_key vkKeyScan key with
    | none => (queue, lastInput)
    | some vk =>
      if vk = 0 then (queue, lastInput)
      else (queue ++ [KeyEvt.mk EvKind.keydown vk], now)

/-- C6: evaluation of the key-resolution path at the failing input.  A named
special key missing from the table (`caps_lock`) is indeed dropped, and a
mapped special key (`enter`) resolves through the table; but a printable
character that the OS character-to-keycode mapping cannot resolve
(`VkKeyScan` returns -1) is NOT dropped: the code masks the failure value to
`(-1) & 0xFF = 255` and enqueues `('keydown', 255)`, contradicting the claim
that a key resolving to no mapping is never enqueued. -/
theorem vk_unmapped_char_enqueued :
    vk_from_key (fun _ => -1) (PyKey.keyCode (some 'x')) = some 255 ∧
    on_press (fun _ => -1) true (PyKey.keyCode (some 'x')) [] 0 5
      = ([KeyEvt.mk EvKind.keydown 255], 5) ∧
    SPECIAL_KEY_MAP PyKey.caps_lock = none ∧
    on_press (fun _ => -1) true PyKey.caps_lock [] 0 5 = ([], 0) ∧
    vk_from_key (fun _ => -1) PyKey.enter = some 0x0D := by
  refine ⟨?_, ?_, rfl, rfl, rfl⟩ <;> decide

/-! ## Lock discipline around the shared batch and timestamp:
`on_press`/`on_release` (lines 249-265) and the drain step of
`_process_input_queue` (lines 267-275). -/

/-- Atomic operations on the shared state performed by the capture callbacks
and the flush loop: acquiring/releasing `_queue_lock`, writing/reading
`_last_input_time`, appending to `_input_queue`, and draining (copy + clear)
it. -/
inductive LockOp where
  | acquire | release | writeTimestamp | readTimestamp | appendQueue | drainQueue
deriving DecidableEq

/-- Operation sequence of `on_press` (lines 249-256) once the event is gated
and the key resolves: `_last_input_time = time.time()` is executed before
`with _queue_lock:`, which wraps only the `_input_queue.append`. -/
def on_press_ops : List LockOp :=
  [LockOp.writeTimestamp, LockOp.acquire, LockOp.appendQueue, LockOp.release]

/-- Operation sequence of `on_release` (lines 258-265), identical in shape to
`on_press`. -/
def on_release_ops : List LockOp :=
  [LockOp.writeTimestamp, LockOp.acquire, LockOp.appendQueue, LockOp.release]

/-- Operation sequence of one drain iteration of `_process_input_queue`
(lines 270-275): the `with _queue_lock:` block wraps the emptiness test, the
read of `_last_input_time` (`elapsed = time.time() - _last_input_time`), the
batch copy and the clear. -/
def process_iteration_ops : List LockOp :=
  [LockOp.acquire, LockOp.readTimestamp, LockOp.drainQueue, LockOp.release]

/-- Annotate each operation of a sequence with whether `_queue_lock` is held
when it executes, starting from the given lock state. -/
def annotate (held : Bool) : List LockOp → List (LockOp × Bool)
  | [] => []
  | LockOp.acquire :: rest => (LockOp.acquire, true) :: annotate true rest
  | LockOp.release :: rest => (LockOp.release, false) :: annotate false rest
  | op :: rest => (op, held) :: annotate held rest

/-- Does an operation touch the shared pending batch or its timestamp? -/
def touchesShared : LockOp → Bool
  | LockOp.writeTimestamp => true
  | LockOp.readTimestamp => true
  | LockOp.appendQueue => true
  | LockOp.drainQueue => true
  | _ => false

/-- All annotated shared-state operations of the two capture callbacks and
the drain iteration, each entered with the lock not held. -/
def allHandlerOps : List (LockOp × Bool) :=
  annotate false on_press_ops ++ annotate false on_release_ops ++
    annotate false process_iteration_ops

/-- C7 counterexample: it is NOT the case that every access to the shared
batch or its last-event timestamp happens under the lock — the
`_last_input_time` writes in `on_press`/`on_release` execute before the lock
is acquired. -/
theorem timestamp_write_outside_lock :
    ¬ (∀ p ∈ allHandlerOps, touchesShared p.1 = true → p.2 = true) := by
  decide

/-- C7 (amended): every queue access (append in the callbacks, drain-and-clear
in the flush loop) and the flush loop's timestamp read occur while holding
`_queue_lock`, but the timestamp writes of `on_press` and `on_release` occur
outside the lock. -/
theorem guarded_accesses_lock_discipline :
    (∀ p ∈ allHandlerOps,
       (p.1 = LockOp.appendQueue ∨ p.1 = LockOp.drainQueue ∨
        p.1 = LockOp.readTimestamp) → p.2 = true) ∧
    (LockOp.writeTimestamp, false) ∈ annotate false on_press_ops ∧
    (LockOp.writeTimestamp, false) ∈ annotate false on_release_ops := by
  refine ⟨?_, by decide, by decide⟩
  decide

/-- Witness for the amended C7 at a concrete operation: the queue append of
`on_press` is in the annotated list and is performed under the lock. -/
theorem guarded_accesses_lock_discipline_witness :
    ((LockOp.appendQueue, true) ∈ allHandlerOps ∧
      (LockOp.appendQueue, true).1 = LockOp.appendQueue) ∧
    ((LockOp.appendQueue, true) : LockOp × Bool).2 = true :=
  ⟨⟨by decide, rfl⟩,
    guarded_accesses_lock_discipline.1 (LockOp.appendQueue, true) (by decide)
      (Or.inl rfl)⟩

/-! ## The flush loop: one iteration of `_process_input_queue`
(lines 267-312). -/

/-- The debounce threshold `_capture_debounce_delay` (line 37): 1 second.
Timestamps (`time.time()` values) are modelled throughout in integer
milliseconds, so the threshold is 1000. -/
def capture_debounce_delay : ℤ := 1000

/-- Environment of one flush iteration: the foreground window's title as
`GetWindowText(GetForegroundWindow())` reports it (`none` when the query
raised, taking the `except: continue` branch of lines 280-281), and the
compiled source pattern `SOURCE_RE` (`none` when compilation failed). -/
structure FlushEnv where
  foregroundTitle : Option String
  sourceRe : Option CompiledRegex

/-- One target of the flush loop: its handle, whether
`SwitchToThisWindow` succeeds (its failure raises into the per-target
`except` of lines 307-308, skipping this target's whole batch), and which
individual key injections succeed (a failure there is caught by the
per-event `except` of lines 305-306 and only logged). -/
structure TargetEnv where
  hwnd : Nat
  switchOk : Bool
  injectOk : KeyEvt → Bool

/-- Outcome of the flush loop's body for one target: the foreground switch
raised (batch skipped for this target), or the per-event injection attempts
with their success flags. -/
inductive TargetOutcome where
  | switchFailed
  | processed (attempts : List (KeyEvt × Bool))

/-- Per-target body of the flush loop (lines 283-308): switch the target to
the foreground, then replay the whole batch, one guarded injection per
event. -/
def processTarget (t : TargetEnv) (batch : List KeyEvt) : TargetOutcome :=
  if t.switchOk then
    TargetOutcome.processed (batch.map fun e => (e, t.injectOk e))
  else TargetOutcome.switchFailed

/-- The `for target_hwnd in list(target_windows):` loop of the flush
(lines 283-308): every target is processed in order; a raising target is
logged and the loop continues. -/
def flushDispatch (targets : List TargetEnv) (batch : List KeyEvt) :
    List (Nat × TargetOutcome) :=
  match targets with
  | [] => []
  | t :: rest => (t.hwnd, processTarget t batch) :: flushDispatch rest batch

/-- The guard of line 279: `if SOURCE_RE and not SOURCE_RE.search(source_title):
continue` — the flush is abandoned only when a compiled source regex exists
and it does not match the foreground title (no substring fallback here). -/
def sourceReBlocks (sourceRe : Option CompiledRegex) (title : String) : Bool :=
  match sourceRe with
  | none => false
  | some r => !r.search title

/-- Result of one iteration of the `while True:` loop of
`_process_input_queue`: the iteration skipped (empty queue, debounce window
still open, foreground query raised, or foreground no longer matching the
source rule), or it flushed the batch to the targets. -/
inductive IterResult where
  | skippedEmpty | skippedDebounce | skippedFgError | skippedFgMismatch
  | flushed (dispatch : List (Nat × TargetOutcome))

/-- The key events whose injection was attempted during an iteration,
paired with the target they were replayed to. -/
def injectionsOf : IterResult → List (Nat × KeyEvt)
  | IterResult.flushed ds =>
    ds.flatMap fun p =>
      match p.2 with
      | TargetOutcome.switchFailed => []
      | TargetOutcome.processed as => as.map fun a => (p.1, a.1)
  | _ => []

/-- Embedding of one iteration of `_process_input_queue` (lines 268-312),
given the state of the queue and timestamp and the environment at that
instant (`targets` is what `refresh_target_windows()` resolves to at line
282).  Returns the queue afterwards and what the iteration did.  Note the
batch is drained (the queue cleared) before the foreground re-check, so a
failed re-check discards it. -/
def processIteration (env : FlushEnv) (targets : List TargetEnv)
    (queue : List KeyEvt) (lastInput now : ℤ) : List KeyEvt × IterResult :=
  if queue = [] then (queue, IterResult.skippedEmpty)
  else if now - lastInput < capture_debounce_delay then
    (queue, IterResult.skippedDebounce)
  else
    match env.foregroundTitle with
    | none => ([], IterResult.skippedFgError)
    | some title =>
      if sourceReBlocks env.sourceRe title then ([], IterResult.skippedFgMismatch)
      else ([], IterResult.flushed (flushDispatch targets queue))

/-- C4: when a flush fires (non-empty queue, debounce window elapsed) and a
compiled source regex exists but no longer matches the foreground title, the
iteration injects no key event, discards the pending batch (the queue is left
empty, nothing is re-queued) and returns to the idle polling state. -/
theorem flush_aborts_on_foreground_mismatch
    (env : FlushEnv) (targets : List TargetEnv) (queue : List KeyEvt)
    (lastInput now : ℤ) (r : CompiledRegex) (title : String)
    (hq : queue ≠ []) (ht : capture_debounce_delay ≤ now - lastInput)
    (hfg : env.foregroundTitle = some title) (hre : env.sourceRe = some r)
    (hmatch : r.search title = false) :
    processIteration env targets queue lastInput now
      = ([], IterResult.skippedFgMismatch) ∧
    injectionsOf (processIteration env targets queue lastInput now).2 = [] := by
  have hblock : sourceReBlocks env.sourceRe title = true := by
    rw [hre, sourceReBlocks, hmatch]
    rfl
  have hstep : processIteration env targets queue lastInput now
      = ([], IterResult.skippedFgMismatch) := by
    rw [processIteration, if_neg hq, if_neg (not_lt.mpr ht), hfg]
    simp only [hblock, if_pos]
  refine ⟨hstep, ?_⟩
  rw [hstep]
  rfl

/-- Witness for C4 at concrete inputs: one pending keydown, debounce elapsed,
foreground title "notepad" rejected by a never-matching compiled source
regex: the batch is dropped and nothing is injected. -/
theorem flush_aborts_on_foreground_mismatch_witness :
    [KeyEvt.mk EvKind.keydown 65] ≠ ([] : List KeyEvt) ∧
    capture_debounce_delay ≤ (2000 : ℤ) - 0 ∧
    processIteration
        (FlushEnv.mk (some "notepad")
          (some (CompiledRegex.mk (fun _ => false) (fun _ _ _ => rfl))))
        [] [KeyEvt.mk EvKind.keydown 65] 0 2000
      = ([], IterResult.skippedFgMismatch) ∧
    injectionsOf (processIteration
        (FlushEnv.mk (some "notepad")
          (some (CompiledRegex.mk (fun _ => false) (fun _ _ _ => rfl))))
        [] [KeyEvt.mk EvKind.keydown 65] 0 2000).2 = [] := by
  refine ⟨by decide, by decide, ?_, ?_⟩
  · exact (flush_aborts_on_foreground_mismatch _ _ _ _ _
      (CompiledRegex.mk (fun _ => false) (fun _ _ _ => rfl)) "notepad"
      (by decide) (by decide) rfl rfl rfl).1
  · exact (flush_aborts_on_foreground_mismatch _ _ _ _ _
      (CompiledRegex.mk (fun _ => false) (fun _ _ _ => rfl)) "notepad"
      (by decide) (by decide) rfl rfl rfl).2

/-- C8: a dispatch failure for one target never prevents the remaining
targets from receiving the same event and never aborts the batch: a raising
target in the middle of the mouse-post loop leaves every other target's post
exactly as it would have been, and likewise a target whose foreground switch
raises in the key-flush loop leaves every other target's replay of the full
batch intact. -/
theorem dispatch_failure_isolation :
    (∀ (x y : Int) (flag : MouseMsg) (pre post : List TargetWin)
       (bad : TargetWin), bad.postOk = false →
       send_mouse_event (pre ++ bad :: post) x y flag
         = send_mouse_event pre x y flag ++
           MouseAttempt.mk bad.hwnd flag none :: send_mouse_event post x y flag) ∧
    (∀ (batch : List KeyEvt) (pre post : List TargetEnv) (bad : TargetEnv),
       bad.switchOk = false →
       flushDispatch (pre ++ bad :: post) batch
         = flushDispatch pre batch ++
           (bad.hwnd, TargetOutcome.switchFailed) :: flushDispatch post batch) := by
  constructor
  · intro x y flag pre post bad hbad
    induction pre with
    | nil => simp [send_mouse_event, hbad]
    | cons t rest ih =>
      simp only [List.cons_append, send_mouse_event]
      exact congrArg _ ih
  · intro batch pre post bad hbad
    induction pre with
    | nil => simp [flushDispatch, processTarget, hbad]
    | cons t rest ih =>
      simp only [List.cons_append, flushDispatch]
      exact congrArg _ ih

/-- Witness for C8 at concrete inputs: with a raising middle target, the
mouse loop still posts to the first and third targets, and the key-flush loop
still replays the batch to them. -/
theorem dispatch_failure_isolation_witness :
    (TargetWin.mk 2 10 10 (0, 0) false).postOk = false ∧
    send_mouse_event
        [TargetWin.mk 1 10 10 (0, 0) true, TargetWin.mk 2 10 10 (0, 0) false,
         TargetWin.mk 3 10 10 (0, 0) true] 8 9 MouseMsg.move
      = send_mouse_event [TargetWin.mk 1 10 10 (0, 0) true] 8 9 MouseMsg.move ++
        MouseAttempt.mk 2 MouseMsg.move none ::
          send_mouse_event [TargetWin.mk 3 10 10 (0, 0) true] 8 9 MouseMsg.move ∧
    flushDispatch
        [TargetEnv.mk 1 true (fun _ => true), TargetEnv.mk 2 false (fun _ => true),
         TargetEnv.mk 3 true (fun _ => true)] [KeyEvt.mk EvKind.keydown 65]
      = flushDispatch [TargetEnv.mk 1 true (fun _ => true)]
          [KeyEvt.mk EvKind.keydown 65] ++
        (2, TargetOutcome.switchFailed) ::
          flushDispatch [TargetEnv.mk 3 true (fun _ => true)]
            [KeyEvt.mk EvKind.keydown 65] :=
  ⟨rfl,
    dispatch_failure_isolation.1 8 9 MouseMsg.move
      [TargetWin.mk 1 10 10 (0, 0) true] [TargetWin.mk 3 10 10 (0, 0) true]
      (TargetWin.mk 2 10 10 (0, 0) false) rfl,
    dispatch_failure_isolation.2 [KeyEvt.mk EvKind.keydown 65]
      [TargetEnv.mk 1 true (fun _ => true)] [TargetEnv.mk 3 true (fun _ => true)]
      (TargetEnv.mk 2 false (fun _ => true)) rfl⟩

/-! ## Debounce semantics of the capture callbacks and the drain step of
`_process_input_queue` (lines 249-275).

The shared queue state evolves under two kinds of events: a gated key event
(the body of `on_press`/`on_release` once the key resolves: record the time,
append to the queue) and one polling iteration of the flush loop (executed
every ~10 ms: drain the queue when it is non-empty and the debounce window
has elapsed).  Timestamps are integer milliseconds; the threshold
`capture_debounce_delay` is 1000. -/

/-- A timed event of the debounce system: a gated keyboard event appended by
`on_press`/`on_release` at time `t`, or one poll of the flush loop at time
`t`. -/
inductive TEvent where
  | key (t : ℤ) (e : KeyEvt)
  | poll (t : ℤ)
deriving DecidableEq

/-- The shared state: the pending `_input_queue`, the `_last_input_time`
timestamp, and the history of drained batches (each drain is one flush). -/
structure DebState where
  queue : List KeyEvt
  lastInput : ℤ
  flushes : List (List KeyEvt)
deriving DecidableEq

/-- One step of the system.  A key event appends `e` and sets
`_last_input_time` to the current time (lines 253-256, 262-265).  A poll runs
the drain step of lines 270-275: do nothing if the queue is empty or
`time.time() - _last_input_time < _capture_debounce_delay`; otherwise copy
the queue as the batch (recorded as a flush) and clear it. -/
def stepEvent (s : DebState) : TEvent → DebState
  | TEvent.key t e => DebState.mk (s.queue ++ [e]) t s.flushes
  | TEvent.poll t =>
    if s.queue = [] then s
    else if t - s.lastInput < capture_debounce_delay then s
    else DebState.mk [] s.lastInput (s.flushes ++ [s.queue])

/-- Run the system over a sequence of timed events. -/
def runTrace (s : DebState) (tr : List TEvent) : DebState :=
  tr.foldl stepEvent s

/-- A segment containing no key events (only polls). -/
def pollsOnly : List TEvent → Bool
  | [] => true
  | TEvent.poll _ :: rest => pollsOnly rest
  | TEvent.key _ _ :: _ => false

/-- A burst segment relative to the time `last` of the latest key event:
every subsequent event (key arrival or poll) happens strictly within the
debounce window of the latest key so far.  For key events this is the
claim's "inter-arrival gaps all below the threshold"; for polls it reflects
that the loop polls every ~10 ms, so every poll during the burst falls
inside the window. -/
def burstTrace : ℤ → List TEvent → Bool
  | _, [] => true
  | last, TEvent.key t _ :: rest =>
    decide (t - last < capture_debounce_delay) && burstTrace t rest
  | last, TEvent.poll t :: rest =>
    decide (t - last < capture_debounce_delay) && burstTrace last rest

/-- The key events of a segment, in arrival order. -/
def keysOf : List TEvent → List KeyEvt
  | [] => []
  | TEvent.key _ e :: rest => e :: keysOf rest
  | TEvent.poll _ :: rest => keysOf rest

/-- The time of the last key event of a segment (or `last` if it has none). -/
def lastKeyTime : ℤ → List TEvent → ℤ
  | last, [] => last
  | _, TEvent.key t _ :: rest => lastKeyTime t rest
  | last, TEvent.poll _ :: rest => lastKeyTime last rest

theorem runTrace_append (s : DebState) (a b : List TEvent) :
    runTrace s (a ++ b) = runTrace (runTrace s a) b := by
  simp [runTrace, List.foldl_append]

/-- Polls leave a state with an empty queue untouched. -/
theorem runTrace_polls_empty (tr : List TEvent) (h : pollsOnly tr = true) :
    ∀ s : DebState, s.queue = [] → runTrace s tr = s := by
  induction tr with
  | nil => intro s _; rfl
  | cons ev rest ih =>
    intro s hq
    cases ev with
    | key t e => exact absurd h (by simp [pollsOnly])
    | poll t =>
      have hstep : stepEvent s (TEvent.poll t) = s := by
        simp only [stepEvent]
        rw [if_pos hq]
      show runTrace (stepEvent s (TEvent.poll t)) rest = s
      rw [hstep]
      exact ih (by simpa [pollsOnly] using h) s hq

/-- During a burst no poll fires: the queue only accumulates the keys in
order and the timestamp tracks the latest key. -/
theorem runTrace_burst (tr : List TEvent) :
    ∀ (last : ℤ), burstTrace last tr = true →
    ∀ (q : List KeyEvt) (F : List (List KeyEvt)), q ≠ [] →
    runTrace (DebState.mk q last F) tr
      = DebState.mk (q ++ keysOf tr) (lastKeyTime last tr) F := by
  induction tr with
  | nil => intro last _ q F _; simp [runTrace, keysOf, lastKeyTime]
  | cons ev rest ih =>
    intro last h q F hq
    cases ev with
    | key t e =>
      have h2 : burstTrace t rest = true := by
        simp only [burstTrace, Bool.and_eq_true] at h
        exact h.2
      show runTrace (stepEvent (DebState.mk q last F) (TEvent.key t e)) rest = _
      have hstep : stepEvent (DebState.mk q last F) (TEvent.key t e)
          = DebState.mk (q ++ [e]) t F := rfl
      rw [hstep, ih t h2 (q ++ [e]) F (by simp)]
      simp [keysOf, lastKeyTime, List.append_assoc]
    | poll t =>
      obtain ⟨h1, h2⟩ : t - last < capture_debounce_delay ∧
          burstTrace last rest = true := by
        simpa only [burstTrace, Bool.and_eq_true, decide_eq_true_eq] using h
      show runTrace (stepEvent (DebState.mk q last F) (TEvent.poll t)) rest = _
      have hstep : stepEvent (DebState.mk q last F) (TEvent.poll t)
          = DebState.mk q last F := by
        simp only [stepEvent]
        rw [if_neg hq, if_pos h1]
      rw [hstep, ih last h2 q F hq]
      simp [keysOf, lastKeyTime]

/-- A poll after the debounce window of a non-empty queue drains it as one
flush. -/
theorem stepEvent_flush (s : DebState) (T : ℤ) (hq : s.queue ≠ [])
    (hT : ¬ (T - s.lastInput < capture_debounce_delay)) :
    stepEvent s (TEvent.poll T)
      = DebState.mk [] s.lastInput (s.flushes ++ [s.queue]) := by
  simp only [stepEvent]
  rw [if_neg hq, if_neg hT]

/-- C3: (first conjunct) a burst of gated keyboard events whose inter-arrival
gaps all lie below the debounce threshold produces exactly one flush, whose
batch holds all its (eventKind, keyCode) pairs in arrival order: starting
idle, after any polls, the burst accumulates untouched, and the first poll
past the quiet period drains everything at once, later polls doing nothing.
(Second conjunct) two such bursts separated by more than the threshold —
so that, with the loop polling every ~10 ms, a poll falls in the separating
quiet period (`T₁`) and another after the second burst (`T₂`) — produce
exactly two flushes, one per burst. -/
theorem debounce_flush_behavior :
    (∀ (t₀ : ℤ) (p₀ : List TEvent) (t₁ : ℤ) (k₁ : KeyEvt) (r : List TEvent)
       (T : ℤ) (tl : List TEvent),
       pollsOnly p₀ = true → burstTrace t₁ r = true →
       lastKeyTime t₁ r + capture_debounce_delay ≤ T → pollsOnly tl = true →
       runTrace (DebState.mk [] t₀ [])
           (p₀ ++ (TEvent.key t₁ k₁ :: (r ++ (TEvent.poll T :: tl))))
         = DebState.mk [] (lastKeyTime t₁ r) [k₁ :: keysOf r]) ∧
    (∀ (t₀ : ℤ) (p₀ : List TEvent) (t₁ : ℤ) (k₁ : KeyEvt) (r₁ : List TEvent)
       (T₁ : ℤ) (p₁ : List TEvent) (u₁ : ℤ) (m₁ : KeyEvt) (r₂ : List TEvent)
       (T₂ : ℤ) (tl : List TEvent),
       pollsOnly p₀ = true → burstTrace t₁ r₁ = true →
       lastKeyTime t₁ r₁ + capture_debounce_delay ≤ T₁ → pollsOnly p₁ = true →
       burstTrace u₁ r₂ = true →
       lastKeyTime u₁ r₂ + capture_debounce_delay ≤ T₂ → pollsOnly tl = true →
       runTrace (DebState.mk [] t₀ [])
           (p₀ ++ (TEvent.key t₁ k₁ :: (r₁ ++ (TEvent.poll T₁ ::
             (p₁ ++ (TEvent.key u₁ m₁ :: (r₂ ++ (TEvent.poll T₂ :: tl))))))))
         = DebState.mk [] (lastKeyTime u₁ r₂)
             [k₁ :: keysOf r₁, m₁ :: keysOf r₂]) := by
  constructor
  · intro t₀ p₀ t₁ k₁ r T tl hp₀ hr hT htl
    rw [runTrace_append, runTrace_polls_empty p₀ hp₀ (DebState.mk [] t₀ []) rfl]
    show runTrace (DebState.mk [k₁] t₁ []) (r ++ (TEvent.poll T :: tl)) = _
    rw [runTrace_append, runTrace_burst r t₁ hr [k₁] [] (by simp)]
    show runTrace (stepEvent
      (DebState.mk ([k₁] ++ keysOf r) (lastKeyTime t₁ r) []) (TEvent.poll T)) tl = _
    rw [stepEvent_flush _ T (by simp) (not_lt.mpr (by linarith [hT]))]
    rw [runTrace_polls_empty tl htl _ rfl]
    simp
  · intro t₀ p₀ t₁ k₁ r₁ T₁ p₁ u₁ m₁ r₂ T₂ tl hp₀ hr₁ hT₁ hp₁ hr₂ hT₂ htl
    rw [runTrace_append, runTrace_polls_empty p₀ hp₀ (DebState.mk [] t₀ []) rfl]
    show runTrace (DebState.mk [k₁] t₁ [])
      (r₁ ++ (TEvent.poll T₁ :: (p₁ ++ (TEvent.key u₁ m₁ ::
        (r₂ ++ (TEvent.poll T₂ :: tl)))))) = _
    rw [runTrace_append, runTrace_burst r₁ t₁ hr₁ [k₁] [] (by simp)]
    show runTrace (stepEvent
      (DebState.mk ([k₁] ++ keysOf r₁) (lastKeyTime t₁ r₁) []) (TEvent.poll T₁))
      (p₁ ++ (TEvent.key u₁ m₁ :: (r₂ ++ (TEvent.poll T₂ :: tl)))) = _
    rw [stepEvent_flush _ T₁ (by simp) (not_lt.mpr (by linarith [hT₁]))]
    show runTrace (DebState.mk [] (lastKeyTime t₁ r₁) [[k₁] ++ keysOf r₁])
      (p₁ ++ (TEvent.key u₁ m₁ :: (r₂ ++ (TEvent.poll T₂ :: tl)))) = _
    rw [runTrace_append, runTrace_polls_empty p₁ hp₁
      (DebState.mk [] (lastKeyTime t₁ r₁) [[k₁] ++ keysOf r₁]) rfl]
    show runTrace (DebState.mk [m₁] u₁ [[k₁] ++ keysOf r₁])
      (r₂ ++ (TEvent.poll T₂ :: tl)) = _
    rw [runTrace_append, runTrace_burst r₂ u₁ hr₂ [m₁] _ (by simp)]
    show runTrace (stepEvent
      (DebState.mk ([m₁] ++ keysOf r₂) (lastKeyTime u₁ r₂)
        [[k₁] ++ keysOf r₁]) (TEvent.poll T₂)) tl = _
    rw [stepEvent_flush _ T₂ (by simp) (not_lt.mpr (by linarith [hT₂]))]
    rw [runTrace_polls_empty tl htl
      (DebState.mk [] (lastKeyTime u₁ r₂)
        ([[k₁] ++ keysOf r₁] ++ [[m₁] ++ keysOf r₂])) rfl]
    simp

/-- Witness for C3 at concrete traces (times in milliseconds).  One burst —
keydown at 500, keyup at 800 (gap 300 < 1000) — with polls at 100 and 2100
around it is flushed exactly once, by the poll at 2000, as the ordered batch
of both events.  Two one-event bursts at 0 and 1500 separated by polls at
1000 and 2600 are flushed as two separate batches. -/
theorem debounce_flush_behavior_witness :
    (pollsOnly [TEvent.poll 100] = true ∧
     burstTrace 500 [TEvent.key 800 (KeyEvt.mk EvKind.keyup 65)] = true ∧
     lastKeyTime 500 [TEvent.key 800 (KeyEvt.mk EvKind.keyup 65)] +
       capture_debounce_delay ≤ 2000 ∧
     runTrace (DebState.mk [] 0 [])
         ([TEvent.poll 100] ++ (TEvent.key 500 (KeyEvt.mk EvKind.keydown 65) ::
           ([TEvent.key 800 (KeyEvt.mk EvKind.keyup 65)] ++
             (TEvent.poll 2000 :: [TEvent.poll 2100]))))
       = DebState.mk []
           (lastKeyTime 500 [TEvent.key 800 (KeyEvt.mk EvKind.keyup 65)])
           [KeyEvt.mk EvKind.keydown 65 ::
             keysOf [TEvent.key 800 (KeyEvt.mk EvKind.keyup 65)]]) ∧
    runTrace (DebState.mk [] 0 [])
        ([] ++ (TEvent.key 0 (KeyEvt.mk EvKind.keydown 65) ::
          ([] ++ (TEvent.poll 1000 ::
            ([] ++ (TEvent.key 1500 (KeyEvt.mk EvKind.keydown 66) ::
              ([] ++ (TEvent.poll 2600 :: ([] : List TEvent)))))))))
      = DebState.mk [] (lastKeyTime 1500 ([] : List TEvent))
          [KeyEvt.mk EvKind.keydown 65 :: keysOf ([] : List TEvent),
           KeyEvt.mk EvKind.keydown 66 :: keysOf ([] : List TEvent)] :=
  ⟨⟨by decide, by decide, by decide,
     debounce_flush_behavior.1 0 [TEvent.poll 100] 500
       (KeyEvt.mk EvKind.keydown 65) [TEvent.key 800 (KeyEvt.mk EvKind.keyup 65)]
       2000 [TEvent.poll 2100] (by decide) (by decide) (by decide) (by decide)⟩,
   debounce_flush_behavior.2 0 [] 0 (KeyEvt.mk EvKind.keydown 65) [] 1000 []
     1500 (KeyEvt.mk EvKind.keydown 66) [] 2600 []
     (by decide) (by decide) (by decide) (by decide) (by decide) (by decide)
     (by decide)⟩

end Mirrorbox
